import Mathlib

/-!
# Shallow embedding of `contact/models.py` (Contact model)

The repository defines a single Django model, `Contact`, with a `save` override
that auto-assigns `customer_id` per organization, and array-of-hstore fields
(`addresses`, `emails`, `phones`) with external validators.

Modelling decisions:
* A database state is a `List Contact` (the stored rows).
* `customer_id` and `organization_uuid` are `Option String` (nullable CharFields).
* The queryset
  `objects.filter(organization_uuid=...).exclude(customer_id=None).order_by('-customer_id').first()`
  selects a row whose `customer_id` is maximal in the *string* order of the
  CharField column; only its `customer_id` is consumed, so we compute that
  maximal string directly (`maxId`).  String comparison is Lean's lexicographic
  `String.lt`, which agrees with byte-wise collation on ASCII digit strings.
* Python `int(s)` is `pyInt`; it raises `ValueError` (uncaught in the source,
  where only `AttributeError` is caught) on non-numeric input.
* Python `str(n)` is `toString` on `Int`.
* `super().save(**kwargs)` is `persist`: sets `edit_date` (auto_now), inserts a
  fresh row when `pk` is absent, otherwise updates the row with that `pk`
  (inserting when no such row exists, as the ORM does).  `create_date` has a
  `default` applied at object construction and is never touched by `save`.
* Timestamps are abstract ticks (`Nat`).
-/

namespace KupferContact

/-- `ADDRESS_TYPE_CHOICES` from `contact/models.py`. -/
def ADDRESS_TYPE_CHOICES : List String :=
  ["home", "billing", "business", "delivery", "mailing"]

/-- `PHONE_TYPE_CHOICES` from `contact/models.py`. -/
def PHONE_TYPE_CHOICES : List String :=
  ["office", "mobile", "home", "fax"]

/-- `EMAIL_TYPE_CHOICES` from `contact/models.py`. -/
def EMAIL_TYPE_CHOICES : List String :=
  ["office", "private", "other"]

/-- An HStore value: a list of key/value pairs of strings. -/
abbrev HStore := List (String × String)

/-- The `Contact` model of `contact/models.py`.  Fields are translated
one-for-one; nullable (`null=True`) columns are `Option`s, UUIDs are abstract
`Nat`s, datetimes are abstract `Nat` ticks.  `pk` is the implicit Django
auto-primary-key (absent before the first insert). -/
structure Contact where
  pk : Option Nat := none
  uuid : Nat := 0
  core_user_uuid : Option Nat := none
  customer_id : Option String := none
  first_name : String := ""
  middle_name : String := ""
  last_name : String := ""
  title : Option String := none
  suffix : String := ""
  contact_type : Option String := none
  customer_type : Option String := none
  company : Option String := none
  addresses : Option (List HStore) := none
  siteprofile_uuids : Option (List Nat) := none
  emails : Option (List HStore) := none
  phones : Option (List HStore) := none
  notes : Option String := none
  organization_uuid : Option String := none
  workflowlevel1_uuids : List String := []
  workflowlevel2_uuids : Option (List String) := none
  create_date : Nat := 0
  edit_date : Nat := 0
deriving Repr, DecidableEq

/-- Python truthiness of a nullable string field: `None` and `""` are falsy
(`if not self.customer_id:`). -/
def pyTruthy : Option String → Bool
  | none => false
  | some s => s != ""

/-- Helper for `pyInt`: a non-empty all-digit character list read in base 10. -/
def digitsToNat : List Char → Option Nat
  | [] => none
  | cs =>
    if cs.all (fun c => c.isDigit) then
      some (cs.foldl (fun a c => a * 10 + (c.toNat - 48)) 0)
    else none

/-- Strip leading and trailing whitespace from a character list (the
whitespace tolerance of Python's `int`). -/
def trimChars (cs : List Char) : List Char :=
  ((cs.dropWhile (fun c => c.isWhitespace)).reverse.dropWhile
    (fun c => c.isWhitespace)).reverse

/-- Python `int(s)` on a string: optional surrounding whitespace, an optional
sign, then decimal digits; anything else raises `ValueError` (`none`). -/
def pyInt (s : String) : Option Int :=
  match trimChars s.data with
  | '-' :: rest => (digitsToNat rest).map (fun n => -(n : Int))
  | '+' :: rest => (digitsToNat rest).map (fun n => (n : Int))
  | cs => (digitsToNat cs).map (fun n => (n : Int))

/-- Errors the embedded operations can raise. `valueError` models Python's
`ValueError` from `int(...)`; `validationError` models Django's
`ValidationError` from the field validators. -/
inductive PyError where
  | valueError
  | validationError
deriving Repr, DecidableEq

/-- The queryset
`objects.filter(organization_uuid=org).exclude(customer_id=None)`:
rows of the database in the given organization whose `customer_id` is not
NULL.  (`filter(organization_uuid=None)` matches NULL, as in the ORM.) -/
def orgContactsWithId (db : List Contact) (org : Option String) : List Contact :=
  (db.filter (fun c => c.organization_uuid == org)).filter
    (fun c => !(c.customer_id == none))

/-- The maximal string of a list, in the CharField's (lexicographic) order;
`none` on the empty list.  This is the `customer_id` of the row selected by
`.order_by('-customer_id').first()`. -/
def maxId : List String → Option String
  | [] => none
  | s :: rest =>
    match maxId rest with
    | none => some s
    | some m => if m.data < s.data then some s else some m

/-- The non-NULL `customer_id`s of the same-organization rows. -/
def sameOrgIds (db : List Contact) (org : Option String) : List String :=
  (orgContactsWithId db org).filterMap (fun c => c.customer_id)

/-- `latest_customer_id` in `Contact.get_default_customer_id`:
`...order_by('-customer_id').first().customer_id`; `none` when the queryset is
empty (in Python, `first()` returns `None` and the attribute access raises
`AttributeError`, which the source catches). -/
def latestCustomerId (db : List Contact) (org : Option String) : Option String :=
  maxId (sameOrgIds db org)

/-- `Contact.get_default_customer_id` from `contact/models.py`: take the
stored `customer_id` that is greatest in column order among same-organization
rows and return `str(int(it) + 1)`; when no such row exists the
`AttributeError` is caught and `str(10001)` is returned.  `int(...)` on a
non-numeric string raises `ValueError`, which is not caught. -/
def get_default_customer_id (db : List Contact) (self : Contact) :
    Except PyError String :=
  match latestCustomerId db self.organization_uuid with
  | none => Except.ok (toString (10001 : Int))
  | some latest =>
    match pyInt latest with
    | none => Except.error PyError.valueError
    | some n => Except.ok (toString (n + 1))

/-- `super().save(**kwargs)`: set `edit_date` to the current tick (`auto_now`),
then insert a fresh row when `pk` is absent, otherwise update the row carrying
that `pk` (inserting when no such row exists, as the ORM's save does).
`create_date` is never touched here: its `default` is applied at object
construction. -/
def persist (db : List Contact) (self : Contact) (now : Nat) :
    List Contact × Contact :=
  match self.pk with
  | none =>
    let inserted := { self with edit_date := now, pk := some db.length }
    (db ++ [inserted], inserted)
  | some k =>
    let saved := { self with edit_date := now }
    if db.any (fun c => c.pk == some k) then
      (db.map (fun c => if c.pk == some k then saved else c), saved)
    else
      (db ++ [saved], saved)

/-- `Contact.save` from `contact/models.py`:
`if not self.customer_id: self.customer_id = self.get_default_customer_id()`,
then `super().save(**kwargs)`.  Returns the new database and the saved
record, or the uncaught exception. -/
def save (db : List Contact) (self : Contact) (now : Nat) :
    Except PyError (List Contact × Contact) :=
  if pyTruthy self.customer_id then
    Except.ok (persist db self now)
  else
    match get_default_customer_id db self with
    | Except.error e => Except.error e
    | Except.ok cid =>
      Except.ok (persist db { self with customer_id := some cid } now)

/-- The database after a `save`; unchanged when the save raised. -/
def dbAfter (db : List Contact) (self : Contact) (now : Nat) : List Contact :=
  match save db self now with
  | Except.ok (db2, _) => db2
  | Except.error _ => db

/-- The record as persisted by a `save`; `none` when the save raised. -/
def savedContact (db : List Contact) (self : Contact) (now : Nat) :
    Option Contact :=
  match save db self now with
  | Except.ok (_, c) => some c
  | Except.error _ => none

/-- The `customer_id` carried by the record a `save` persisted. -/
def assignedId (db : List Contact) (self : Contact) (now : Nat) : Option String :=
  match savedContact db self now with
  | some c => c.customer_id
  | none => none

/-- Modelled from the spec: the schema keys of an address entry, from the
`addresses` help text in `contact/models.py` (`contact/validators.py` itself
is not part of this source tree). -/
def ADDRESS_REQUIRED_KEYS : List String :=
  ["type", "street", "house_number", "postal_code", "city", "country"]

/-- Modelled from the spec: the schema keys of an email entry, from the
`emails` help text in `contact/models.py`. -/
def EMAIL_REQUIRED_KEYS : List String :=
  ["type", "email"]

/-- Modelled from the spec: the schema keys of a phone entry, from the
`phones` help text in `contact/models.py`. -/
def PHONE_REQUIRED_KEYS : List String :=
  ["type", "number"]

/-- Modelled from the spec: one address/email/phone entry is valid when every
required key is present and its `type` value belongs to the allowed
enumeration. -/
def validEntry (required : List String) (choices : List String)
    (entry : HStore) : Bool :=
  (required.all (fun k => (entry.lookup k).isSome)) &&
  (match entry.lookup "type" with
   | some t => choices.contains t
   | none => false)

/-- Modelled from the spec: `validate_addresses` from `contact/validators.py`
(absent from this source tree) — every entry checked independently. -/
def validate_addresses (entries : List HStore) : Bool :=
  entries.all (validEntry ADDRESS_REQUIRED_KEYS ADDRESS_TYPE_CHOICES)

/-- Modelled from the spec: `validate_emails` from `contact/validators.py`. -/
def validate_emails (entries : List HStore) : Bool :=
  entries.all (validEntry EMAIL_REQUIRED_KEYS EMAIL_TYPE_CHOICES)

/-- Modelled from the spec: `validate_phones` from `contact/validators.py`. -/
def validate_phones (entries : List HStore) : Bool :=
  entries.all (validEntry PHONE_REQUIRED_KEYS PHONE_TYPE_CHOICES)

/-- Modelled from the spec: all three collection fields of a record pass their
validators (an absent/NULL collection has nothing to validate). -/
def validContact (c : Contact) : Bool :=
  validate_addresses (c.addresses.getD []) &&
  validate_emails (c.emails.getD []) &&
  validate_phones (c.phones.getD [])

/-- Modelled from the spec: the save pipeline with the field validators run
before persistence — invalid collection entries raise a `ValidationError`
and nothing is written. -/
def full_clean_save (db : List Contact) (self : Contact) (now : Nat) :
    Except PyError (List Contact × Contact) :=
  if validContact self then save db self now
  else Except.error PyError.validationError

/-- The database after a validated save; unchanged when it raised. -/
def dbAfterClean (db : List Contact) (self : Contact) (now : Nat) :
    List Contact :=
  match full_clean_save db self now with
  | Except.ok (db2, _) => db2
  | Except.error _ => db

/-! ## Concrete database states and records used in closed statements -/

/-- An organization already holding the numeric customer_ids 9 and 10 (as the
CharField stores them: the strings "9" and "10"). -/
def dbNineTen : List Contact :=
  [{ pk := some 0, organization_uuid := some "org-1", customer_id := some "9" },
   { pk := some 1, organization_uuid := some "org-1", customer_id := some "10" }]

/-- A new record of that organization with no `customer_id` yet. -/
def contactNewOrg1 : Contact := { organization_uuid := some "org-1" }

/-- A stored row of an unrelated organization. -/
def otherOrgRow : Contact :=
  { pk := some 0, organization_uuid := some "other-org", customer_id := some "5" }

/-- A fresh record of an organization with no stored rows. -/
def newOrg2Contact : Contact := { organization_uuid := some "org-2" }

/-- A record arriving with an explicitly supplied `customer_id`. -/
def explicitIdContact : Contact :=
  { organization_uuid := some "org-3", customer_id := some "ABC-1" }

/-- Rows saved in sequence into one organization: two with explicit ids. -/
def rowNine : Contact :=
  { organization_uuid := some "orgX", customer_id := some "9" }

/-- Second explicitly-identified row of the same organization. -/
def rowTen : Contact :=
  { organization_uuid := some "orgX", customer_id := some "10" }

/-- Third row of the same organization, saved without a `customer_id`. -/
def rowAuto : Contact := { organization_uuid := some "orgX" }

/-- A stored row carrying a non-numeric legacy `customer_id`. -/
def legacyRow : Contact :=
  { pk := some 0, organization_uuid := some "org-legacy",
    customer_id := some "abc" }

/-- A fresh record saved into the organization with the legacy row. -/
def newLegacyContact : Contact := { organization_uuid := some "org-legacy" }

/-- A record constructed at tick 3 and saved at tick 5. -/
def contactC8 : Contact :=
  { organization_uuid := some "org-5", customer_id := some "77",
    create_date := 3 }

/-- The row `save [] contactC8 5` persists. -/
def savedRowC8 : Contact :=
  { pk := some 0, organization_uuid := some "org-5", customer_id := some "77",
    create_date := 3, edit_date := 5 }

/-- An organization holding the ids "9" and "10", used to exhibit the string
order of the column. -/
def dbLex : List Contact :=
  [{ pk := some 0, organization_uuid := some "org-9", customer_id := some "9" },
   { pk := some 1, organization_uuid := some "org-9", customer_id := some "10" }]

/-- A fresh record of that organization. -/
def newOrg9Contact : Contact := { organization_uuid := some "org-9" }

/-- A fresh record of an empty organization. -/
def contactC10 : Contact := { organization_uuid := some "org-10" }

/-- The row `save [] contactC10 4` persists. -/
def savedRowC10 : Contact :=
  { pk := some 0, organization_uuid := some "org-10",
    customer_id := some "10001", edit_date := 4 }

/-- A record whose single address entry is missing required keys and carries a
`type` outside the allowed enumeration. -/
def badAddressContact : Contact :=
  { organization_uuid := some "org-4",
    addresses := some [[("type", "castle"), ("street", "Main")]] }

/-! ## Supporting lemmas -/

lemma maxId_eq_none {l : List String} : maxId l = none ↔ l = [] := by
  cases l with
  | nil => simp [maxId]
  | cons s rest =>
    simp only [maxId]
    cases hr : maxId rest with
    | none => simp
    | some m =>
      by_cases hlt : m.data < s.data
      · simp [hlt]
      · simp [hlt]

lemma maxId_mem {l : List String} {m : String} (h : maxId l = some m) :
    m ∈ l := by
  induction l generalizing m with
  | nil => simp [maxId] at h
  | cons s rest ih =>
    simp only [maxId] at h
    cases hr : maxId rest with
    | none =>
      rw [hr] at h
      injection h with h
      subst h
      exact List.mem_cons_self _ _
    | some m' =>
      rw [hr] at h
      dsimp only at h
      by_cases hlt : m'.data < s.data
      · rw [if_pos hlt] at h
        injection h with h
        subst h
        exact List.mem_cons_self _ _
      · rw [if_neg hlt] at h
        injection h with h
        subst h
        exact List.mem_cons_of_mem _ (ih hr)

lemma maxId_ub {l : List String} {m : String} (h : maxId l = some m) :
    ∀ x ∈ l, x.data ≤ m.data := by
  induction l generalizing m with
  | nil => simp [maxId] at h
  | cons s rest ih =>
    simp only [maxId] at h
    intro x hx
    cases hr : maxId rest with
    | none =>
      rw [hr] at h
      injection h with h
      subst h
      have hrest : rest = [] := maxId_eq_none.mp hr
      subst hrest
      rcases List.mem_singleton.mp hx with rfl
      exact le_refl _
    | some m' =>
      rw [hr] at h
      dsimp only at h
      rcases List.mem_cons.mp hx with rfl | hx'
      · by_cases hlt : m'.data < x.data
        · rw [if_pos hlt] at h
          injection h with h
          subst h
          exact le_refl _
        · rw [if_neg hlt] at h
          injection h with h
          subst h
          exact le_of_not_lt hlt
      · have hx2 := ih hr x hx'
        by_cases hlt : m'.data < s.data
        · rw [if_pos hlt] at h
          injection h with h
          subst h
          exact le_trans hx2 (le_of_lt hlt)
        · rw [if_neg hlt] at h
          injection h with h
          subst h
          exact hx2

lemma maxId_eq_of_ub {l : List String} {m : String} (hm : m ∈ l)
    (hub : ∀ x ∈ l, x.data ≤ m.data) : maxId l = some m := by
  cases hmax : maxId l with
  | none =>
    rw [maxId_eq_none] at hmax
    subst hmax
    simp at hm
  | some m0 =>
    have h1 : m0.data ≤ m.data := hub _ (maxId_mem hmax)
    have h2 : m.data ≤ m0.data := maxId_ub hmax _ hm
    have hdata : m0.data = m.data := le_antisymm h1 h2
    have hm0 : m0 = m := by
      cases m0
      cases m
      exact congrArg String.mk hdata
    rw [hm0]

lemma sameOrgIds_eq_nil {db : List Contact} {org : Option String}
    (h : ∀ c ∈ db, c.organization_uuid = org → c.customer_id = none) :
    sameOrgIds db org = [] := by
  rw [List.eq_nil_iff_forall_not_mem]
  intro x hx
  simp only [sameOrgIds, orgContactsWithId, List.mem_filterMap,
    List.mem_filter] at hx
  obtain ⟨c, ⟨⟨hcdb, horg⟩, _⟩, hcx⟩ := hx
  have hcnone : c.customer_id = none := h c hcdb (by simpa using horg)
  rw [hcnone] at hcx
  cases hcx

lemma get_default_congr {db1 db2 : List Contact} {self : Contact}
    (h : latestCustomerId db1 self.organization_uuid =
      latestCustomerId db2 self.organization_uuid) :
    get_default_customer_id db1 self = get_default_customer_id db2 self := by
  simp only [get_default_customer_id, h]

lemma get_default_of_none {db : List Contact} {self : Contact}
    (h : latestCustomerId db self.organization_uuid = none) :
    get_default_customer_id db self = Except.ok "10001" := by
  simp only [get_default_customer_id, h]
  rfl

lemma persist_customer_id (db : List Contact) (c : Contact) (now : Nat) :
    ((persist db c now).2).customer_id = c.customer_id := by
  unfold persist
  cases hpk : c.pk with
  | none => rfl
  | some k =>
    by_cases hany : db.any (fun x => x.pk == some k)
    · simp only [hany]
      rfl
    · simp only [hany]
      rfl

lemma persist_create_date (db : List Contact) (c : Contact) (now : Nat) :
    ((persist db c now).2).create_date = c.create_date := by
  unfold persist
  cases hpk : c.pk with
  | none => rfl
  | some k =>
    by_cases hany : db.any (fun x => x.pk == some k)
    · simp only [hany]
      rfl
    · simp only [hany]
      rfl

lemma persist_edit_date (db : List Contact) (c : Contact) (now : Nat) :
    ((persist db c now).2).edit_date = now := by
  unfold persist
  cases hpk : c.pk with
  | none => rfl
  | some k =>
    by_cases hany : db.any (fun x => x.pk == some k)
    · simp only [hany]
      rfl
    · simp only [hany]
      rfl

lemma persist_mem (db : List Contact) (c : Contact) (now : Nat) :
    (persist db c now).2 ∈ (persist db c now).1 := by
  unfold persist
  cases hpk : c.pk with
  | none => simp
  | some k =>
    by_cases hany : db.any (fun x => x.pk == some k)
    · simp only [hany, if_true]
      obtain ⟨c0, hc0, hp⟩ := List.any_eq_true.mp hany
      exact List.mem_map.mpr ⟨c0, hc0, by simp [hp]⟩
    · simp only [hany, if_false]
      simp

lemma toDigitsCore_length_le (b : Nat) (fuel : Nat) :
    ∀ (n : Nat) (ds : List Char),
      ds.length ≤ (Nat.toDigitsCore b fuel n ds).length := by
  induction fuel with
  | zero =>
    intro n ds
    simp [Nat.toDigitsCore]
  | succ f ih =>
    intro n ds
    rw [Nat.toDigitsCore]
    split
    · simp
    · calc ds.length ≤ (Nat.digitChar (n % b) :: ds).length := by simp
        _ ≤ _ := ih _ _

lemma toDigits_length_pos (b n : Nat) : 0 < (Nat.toDigits b n).length := by
  rw [Nat.toDigits, Nat.toDigitsCore]
  split
  · simp
  · calc 0 < ([Nat.digitChar (n % b)]).length := by simp
      _ ≤ _ := toDigitsCore_length_le _ _ _ _

lemma natRepr_ne_empty (n : Nat) : Nat.repr n ≠ "" := by
  intro h
  have hdata : Nat.toDigits 10 n = [] := congrArg String.data h
  have := toDigits_length_pos 10 n
  rw [hdata] at this
  simp at this

lemma intToString_ne_empty (i : Int) : toString i ≠ "" := by
  cases i with
  | ofNat m => exact natRepr_ne_empty m
  | negSucc m =>
    intro h
    have hdata : '-' :: (Nat.repr (m + 1)).data = [] := congrArg String.data h
    cases hdata

lemma get_default_ok_ne_empty {db : List Contact} {self : Contact}
    {cid : String} (h : get_default_customer_id db self = Except.ok cid) :
    cid ≠ "" := by
  rw [get_default_customer_id] at h
  cases hl : latestCustomerId db self.organization_uuid with
  | none =>
    rw [hl] at h
    injection h with h
    subst h
    exact intToString_ne_empty _
  | some s =>
    rw [hl] at h
    dsimp only at h
    cases hp : pyInt s with
    | none =>
      rw [hp] at h
      cases h
    | some n =>
      rw [hp] at h
      injection h with h
      subst h
      exact intToString_ne_empty _

/-! ## Claims -/

/-- C1 (failing-input evaluation): in an organization whose stored
customer_ids are "9" and "10" (numeric maximum 10), a save with empty
`customer_id` assigns "10" — the string of 1 plus the CharField-greatest
(lexicographic) id "9" — not "11" as the numeric-maximum rule demands, and
the assigned value collides with an id already present. -/
theorem save_numeric_max_violated_at_nine_ten :
    assignedId dbNineTen contactNewOrg1 7 = some "10" ∧
    assignedId dbNineTen contactNewOrg1 7 ≠ some "11" ∧
    some "10" ∈ dbNineTen.map (fun c => c.customer_id) := by decide

/-- C2: when no stored Contact of the same `organization_uuid` has a non-null
`customer_id`, a save on a Contact whose `customer_id` is empty succeeds and
assigns it the string "10001". -/
theorem save_first_contact_gets_10001 (db : List Contact) (self : Contact)
    (now : Nat) (hempty : pyTruthy self.customer_id = false)
    (hnone : ∀ c ∈ db, c.organization_uuid = self.organization_uuid →
      c.customer_id = none) :
    ∃ db2 c2, save db self now = Except.ok (db2, c2) ∧
      c2.customer_id = some "10001" := by
  have hlat : latestCustomerId db self.organization_uuid = none := by
    rw [latestCustomerId, sameOrgIds_eq_nil hnone]
    rfl
  have hdef := get_default_of_none hlat
  refine ⟨(persist db { self with customer_id := some "10001" } now).1,
    (persist db { self with customer_id := some "10001" } now).2, ?_, ?_⟩
  · rw [save, if_neg (by simp [hempty]), hdef]
  · rw [persist_customer_id]

/-- C2 witness: saving a fresh Contact of an empty organization — while an
unrelated organization holds the id "5" — assigns "10001". -/
theorem save_first_contact_gets_10001_witness :
    ∃ db2 c2, save [otherOrgRow] newOrg2Contact 4 = Except.ok (db2, c2) ∧
      c2.customer_id = some "10001" :=
  save_first_contact_gets_10001 [otherOrgRow] newOrg2Contact 4
    (by decide) (by decide)

/-- C3: `customer_id` assignment reads only same-organization rows — the
default computed over `db` equals the one computed over the rows of the
record's organization alone — so when the organization has no prior
customer_ids, the record receives "10001" regardless of what other
organizations contain. -/
theorem customer_id_scoped_to_org (db : List Contact) (self : Contact) :
    get_default_customer_id db self =
      get_default_customer_id
        (db.filter (fun c => c.organization_uuid == self.organization_uuid))
        self ∧
    ((∀ c ∈ db, c.organization_uuid = self.organization_uuid →
        c.customer_id = none) →
      get_default_customer_id db self = Except.ok "10001") := by
  constructor
  · apply get_default_congr
    rw [latestCustomerId, latestCustomerId]
    congr 1
    rw [sameOrgIds, sameOrgIds, orgContactsWithId, orgContactsWithId,
      List.filter_filter]
    simp [Bool.and_self]
  · intro hnone
    apply get_default_of_none
    rw [latestCustomerId, sameOrgIds_eq_nil hnone]
    rfl

/-- C3 witness: with one foreign-organization row stored, the default for a
fresh organization is computed as if that row were absent, and is "10001". -/
theorem customer_id_scoped_to_org_witness :
    get_default_customer_id [otherOrgRow] newOrg2Contact =
      get_default_customer_id
        ([otherOrgRow].filter
          (fun c => c.organization_uuid == newOrg2Contact.organization_uuid))
        newOrg2Contact ∧
    get_default_customer_id [otherOrgRow] newOrg2Contact = Except.ok "10001" :=
  ⟨(customer_id_scoped_to_org [otherOrgRow] newOrg2Contact).1,
   (customer_id_scoped_to_org [otherOrgRow] newOrg2Contact).2 (by decide)⟩

/-- C4: a save on a Contact whose `customer_id` is already a non-empty value
succeeds and persists the record with that `customer_id` unchanged. -/
theorem save_never_overwrites_explicit_id (db : List Contact) (self : Contact)
    (now : Nat) (s : String) (hs : self.customer_id = some s) (hne : s ≠ "") :
    ∃ db2 c2, save db self now = Except.ok (db2, c2) ∧
      c2.customer_id = some s ∧ c2 ∈ db2 := by
  have ht : pyTruthy self.customer_id = true := by
    rw [hs]
    simpa [pyTruthy] using hne
  refine ⟨(persist db self now).1, (persist db self now).2, ?_, ?_, ?_⟩
  · rw [save, if_pos ht]
  · rw [persist_customer_id, hs]
  · exact persist_mem db self now

/-- C4 witness: a record arriving with `customer_id` "ABC-1" is stored with
exactly that id. -/
theorem save_never_overwrites_explicit_id_witness :
    ∃ db2 c2, save [] explicitIdContact 9 = Except.ok (db2, c2) ∧
      c2.customer_id = some "ABC-1" ∧ c2 ∈ db2 :=
  save_never_overwrites_explicit_id [] explicitIdContact 9 "ABC-1"
    rfl (by decide)

/-- C5 (failing-input evaluation): a purely sequential run of three saves —
explicit id "9", explicit id "10", then an automatic assignment — reaches a
state where two distinct rows (pk 1 and pk 2) of the same organization both
carry customer_id "10": the per-organization uniqueness invariant is not
preserved by sequential saves. -/
theorem sequential_saves_produce_duplicate_ids :
    (dbAfter (dbAfter (dbAfter [] rowNine 1) rowTen 2) rowAuto 3).map
        (fun c => (c.pk, c.organization_uuid, c.customer_id)) =
      [(some 0, some "orgX", some "9"), (some 1, some "orgX", some "10"),
        (some 2, some "orgX", some "10")] := by decide

/-- C6: when the row selected as the existing maximum carries a non-numeric
`customer_id` string, a save with empty `customer_id` raises the unhandled
`ValueError` from `int(...)` and the database is unchanged (the fallback in
the source catches only the `AttributeError` of the no-prior-record case). -/
theorem nonnumeric_latest_raises (db : List Contact) (self : Contact)
    (now : Nat) (s : String)
    (hempty : pyTruthy self.customer_id = false)
    (hlat : latestCustomerId db self.organization_uuid = some s)
    (hnan : pyInt s = none) :
    save db self now = Except.error PyError.valueError ∧
      dbAfter db self now = db := by
  have hdef : get_default_customer_id db self =
      Except.error PyError.valueError := by
    rw [get_default_customer_id, hlat]
    dsimp only
    rw [hnan]
  have hsave : save db self now = Except.error PyError.valueError := by
    rw [save, if_neg (by simp [hempty]), hdef]
  exact ⟨hsave, by rw [dbAfter, hsave]⟩

/-- C6 witness: with the legacy id "abc" stored, the save raises and the
stored state is untouched. -/
theorem nonnumeric_latest_raises_witness :
    save [legacyRow] newLegacyContact 2 = Except.error PyError.valueError ∧
      dbAfter [legacyRow] newLegacyContact 2 = [legacyRow] :=
  nonnumeric_latest_raises [legacyRow] newLegacyContact 2 "abc"
    (by decide) (by decide) (by decide)

/-- C7: a Contact containing an address, email or phone entry that misses a
required key or carries a `type` outside the allowed enumeration is rejected
by validation before anything is persisted: the validated save raises a
validation error and the database is unchanged. -/
theorem invalid_entries_block_save (db : List Contact) (self : Contact)
    (now : Nat)
    (h : (∃ e ∈ self.addresses.getD [],
            validEntry ADDRESS_REQUIRED_KEYS ADDRESS_TYPE_CHOICES e = false) ∨
         (∃ e ∈ self.emails.getD [],
            validEntry EMAIL_REQUIRED_KEYS EMAIL_TYPE_CHOICES e = false) ∨
         (∃ e ∈ self.phones.getD [],
            validEntry PHONE_REQUIRED_KEYS PHONE_TYPE_CHOICES e = false)) :
    full_clean_save db self now = Except.error PyError.validationError ∧
      dbAfterClean db self now = db := by
  have hv : validContact self = false := by
    rcases h with ⟨e, he, hbad⟩ | ⟨e, he, hbad⟩ | ⟨e, he, hbad⟩
    · have hva : validate_addresses (self.addresses.getD []) = false := by
        rw [validate_addresses, List.all_eq_false]
        exact ⟨e, he, by simp [hbad]⟩
      simp [validContact, hva]
    · have hve : validate_emails (self.emails.getD []) = false := by
        rw [validate_emails, List.all_eq_false]
        exact ⟨e, he, by simp [hbad]⟩
      simp [validContact, hve]
    · have hvp : validate_phones (self.phones.getD []) = false := by
        rw [validate_phones, List.all_eq_false]
        exact ⟨e, he, by simp [hbad]⟩
      simp [validContact, hvp]
  have hcs : full_clean_save db self now =
      Except.error PyError.validationError := by
    rw [full_clean_save, if_neg (by simp [hv])]
  exact ⟨hcs, by rw [dbAfterClean, hcs]⟩

/-- C7 witness: an address entry typed "castle" and missing the required city,
postal code and country keys blocks the save and leaves the database empty. -/
theorem invalid_entries_block_save_witness :
    full_clean_save [] badAddressContact 1 =
      Except.error PyError.validationError ∧
      dbAfterClean [] badAddressContact 1 = [] :=
  invalid_entries_block_save [] badAddressContact 1 (by decide)

/-- C8: every save that returns leaves `create_date` exactly as it was on the
record (it is set once, at construction/insert, and no later save modifies
it) and stamps `edit_date` with the time of that save. -/
theorem save_timestamp_behavior (db : List Contact) (self : Contact)
    (now : Nat) (db2 : List Contact) (c2 : Contact)
    (h : save db self now = Except.ok (db2, c2)) :
    c2.create_date = self.create_date ∧ c2.edit_date = now := by
  by_cases ht : pyTruthy self.customer_id
  · rw [save, if_pos ht] at h
    injection h with h
    have h2 := congrArg Prod.snd h
    dsimp at h2
    rw [← h2]
    exact ⟨persist_create_date _ _ _, persist_edit_date _ _ _⟩
  · rw [save, if_neg ht] at h
    cases hdef : get_default_customer_id db self with
    | error e =>
      rw [hdef] at h
      cases h
    | ok cid =>
      rw [hdef] at h
      dsimp only at h
      injection h with h
      have h2 := congrArg Prod.snd h
      dsimp at h2
      rw [← h2]
      exact ⟨persist_create_date _ _ _, persist_edit_date _ _ _⟩

/-- C8 witness: a record created at tick 3 and saved at tick 5 is stored with
`create_date` 3 and `edit_date` 5. -/
theorem save_timestamp_behavior_witness :
    savedRowC8.create_date = contactC8.create_date ∧
      savedRowC8.edit_date = 5 :=
  save_timestamp_behavior [] contactC8 5 [savedRowC8] savedRowC8 rfl

/-- C9: with at least one same-organization row carrying a non-null
`customer_id`, `get_default_customer_id` returns `str(int(m) + 1)` where `m`
is the id that is greatest in the string (lexicographic CharField) order
among those rows — e.g. among "9" and "10" the string-greatest is "9", so the
function returns "10". -/
theorem get_default_string_max (db : List Contact) (self : Contact)
    (m : String) (n : Int)
    (hmem : m ∈ sameOrgIds db self.organization_uuid)
    (hub : ∀ x ∈ sameOrgIds db self.organization_uuid, x.data ≤ m.data)
    (hint : pyInt m = some n) :
    get_default_customer_id db self = Except.ok (toString (n + 1)) := by
  have hlat : latestCustomerId db self.organization_uuid = some m := by
    rw [latestCustomerId]
    exact maxId_eq_of_ub hmem hub
  rw [get_default_customer_id, hlat]
  dsimp only
  rw [hint]

/-- C9 witness: among the stored ids "9" and "10" the string-greatest is "9",
and the computed default is "10". -/
theorem get_default_string_max_witness :
    get_default_customer_id dbLex newOrg9Contact = Except.ok "10" :=
  get_default_string_max dbLex newOrg9Contact "9" 9
    (by decide) (by decide) (by decide)

/-- C10: every save that returns without raising persists a record whose
`customer_id` is non-null and non-empty — the assignment branch fires exactly
when `customer_id` is falsy (`None` or the empty string) and always installs
a non-empty decimal string. -/
theorem save_assigns_nonempty_id (db : List Contact) (self : Contact)
    (now : Nat) (db2 : List Contact) (c2 : Contact)
    (h : save db self now = Except.ok (db2, c2)) :
    ∃ s, c2.customer_id = some s ∧ s ≠ "" := by
  by_cases ht : pyTruthy self.customer_id
  · cases hcid : self.customer_id with
    | none =>
      rw [hcid] at ht
      simp [pyTruthy] at ht
    | some s =>
      have hne : s ≠ "" := by
        rw [hcid] at ht
        simpa [pyTruthy] using ht
      rw [save, if_pos ht] at h
      injection h with h
      have h2 := congrArg Prod.snd h
      dsimp at h2
      refine ⟨s, ?_, hne⟩
      rw [← h2, persist_customer_id, hcid]
  · rw [save, if_neg ht] at h
    cases hdef : get_default_customer_id db self with
    | error e =>
      rw [hdef] at h
      cases h
    | ok cid =>
      rw [hdef] at h
      dsimp only at h
      injection h with h
      have h2 := congrArg Prod.snd h
      dsimp at h2
      refine ⟨cid, ?_, get_default_ok_ne_empty hdef⟩
      rw [← h2, persist_customer_id]

/-- C10 witness: the record stored by saving a fresh Contact of an empty
organization carries the non-empty id "10001". -/
theorem save_assigns_nonempty_id_witness :
    ∃ s, savedRowC10.customer_id = some s ∧ s ≠ "" :=
  save_assigns_nonempty_id [] contactC10 4 [savedRowC10] savedRowC10 rfl

end KupferContact
